import Mathlib

/-!
Verification development for the miniPenzlograf G-code optimizer
(scripts/complete_gcode_optimizer.py).  The single-pass engine
`optimize_gcode` is embedded shallowly: each regular-expression test of the
source is translated into an executable scanner over the character list of a
line, the mutable locals of the Python function become the fields of an
explicit state record, and the per-line body of the `while` loop becomes a
step function.  Python floats are modelled by rationals; the one float
operation whose value feeds back into control flow only through comparisons,
`math.sqrt` in the segment-length computation, is abstracted as an explicit
distance-function parameter of the driver, and the concrete runs in this file
instantiate it with `distEuclid`, an exact rational square root that agrees
with `math.sqrt` on the perfect-square inputs those runs use.  Uncaught
Python exceptions (`UnboundLocalError`, `ValueError`) are modelled by the
`Except` monad.  Input lines are represented without their trailing newline
character; the newline the reader appends takes part in none of the
regular-expression matches modelled here.
-/

set_option maxRecDepth 4000

abbrev Chars := List Char

/-- Python regex class `\s` (ASCII whitespace as used by `re`). -/
def pySpace (c : Char) : Bool :=
  c == ' ' || c == '\t' || c == '\n' || c == '\r' || c == '\x0b' || c == '\x0c'

/-- Character class `[\d.-]` of the coordinate regex. -/
def numCls (c : Char) : Bool :=
  c.isDigit || c == '.' || c == '-'

/-- Python regex class `\w` restricted to ASCII, as the layer names use. -/
def wordChar (c : Char) : Bool :=
  c.isAlphanum || c == '_'

/-- Substring search, the semantics of `re.search` on a literal pattern. -/
def hasSub (p : Chars) : Chars → Bool
  | [] => decide (p = [])
  | c :: t => p.isPrefixOf (c :: t) || hasSub p t

def hasSubS (p l : String) : Bool := hasSub p.toList l.toList

/-- `re.search(r'M8', line)` (line 307 of the source). -/
def m8Match (l : String) : Bool := hasSubS "M8" l

/-- The test `"G1" in line` (line 435). -/
def g1InLine (l : String) : Bool := hasSubS "G1" l

/-- `re.search(r'G0\s*', line)`: `\s*` can be empty, so this is substring G0. -/
def g0Sub (l : String) : Bool := hasSubS "G0" l

/-- `re.search(r'G[01]', line)` (lines 459, 497, 505). -/
def g01Match (l : String) : Bool := hasSubS "G0" l || hasSubS "G1" l

/-- `re.search(r'Z0F', line)` — the plunge pattern (line 289). -/
def plungeMatch (l : String) : Bool := hasSubS "Z0F" l

/-- Scanner for `Z[2-9]F` (three consecutive characters). -/
def retractScan : Chars → Bool
  | c1 :: c2 :: c3 :: t =>
    (c1 == 'Z' && c2.isDigit && !(c2 == '0') && !(c2 == '1') && c3 == 'F')
      || retractScan (c2 :: c3 :: t)
  | _ => false

/-- `re.search(r'Z[2-9]F', line)` — the retract pattern (line 290). -/
def retractMatch (l : String) : Bool := retractScan l.toList

/-- Scanner for `Z[1-9]` occurring anywhere in the remaining characters. -/
def zDigScan : Chars → Bool
  | c1 :: c2 :: t =>
    (c1 == 'Z' && c2.isDigit && !(c2 == '0')) || zDigScan (c2 :: t)
  | _ => false

/-- `re.search(r'G0\s*Z[1-9]|G0.*Z[1-9]', line)` (lines 223, 468, 558).
Within one newline-free line the second alternative subsumes the first, so
the search succeeds exactly when some `Z[1-9]` follows the leftmost `G0`
by at least two positions. -/
def idealScan : Chars → Bool
  | [] => false
  | c :: t =>
    if ['G', '0'].isPrefixOf (c :: t) then zDigScan (t.drop 1) else idealScan t

def idealMatch (l : String) : Bool := idealScan l.toList

/-- Scanner for `G1\s*X|G1\s*Y` (lines 475, 556): some `G1` followed by
whitespace and then `X` or `Y`; `X`,`Y` are not whitespace, so the greedy
`\s*` is equivalent to skipping the maximal whitespace run. -/
def g1xyScan : Chars → Bool
  | [] => false
  | c :: t =>
    (if ['G', '1'].isPrefixOf (c :: t) then
      (match (t.drop 1).dropWhile pySpace with
       | x :: _ => x == 'X' || x == 'Y'
       | [] => false)
     else false) || g1xyScan t

def g1xyMatch (l : String) : Bool := g1xyScan l.toList

/-- Tail of the layer-marker regex `;Layer\s+(\w+)` after the literal:
at least one whitespace character, then the maximal nonempty `\w+` run. -/
def layerTail (t : Chars) : Option Chars :=
  match t with
  | c :: _ =>
    if pySpace c then
      (let w := (t.dropWhile pySpace).takeWhile wordChar
       if w = [] then none else some w)
    else none
  | [] => none

/-- `re.search(r';Layer\s+(\w+)', line)` (line 286): leftmost match wins,
and on a failed tail the search resumes one character further. -/
def layerScan : Chars → Option Chars
  | [] => none
  | c :: t =>
    if [';', 'L', 'a', 'y', 'e', 'r'].isPrefixOf (c :: t) then
      match layerTail ((c :: t).drop 6) with
      | some w => some w
      | none => layerScan t
    else layerScan t

def layerMatchS (l : String) : Option String :=
  (layerScan l.toList).map (fun cs => String.mk cs)

/-- Tail of the path-marker regex `; Path\s+(\d+)` after the literal. -/
def pathTail (t : Chars) : Option Chars :=
  match t with
  | c :: _ =>
    if pySpace c then
      (let w := (t.dropWhile pySpace).takeWhile Char.isDigit
       if w = [] then none else some w)
    else none
  | [] => none

/-- `re.search(r'; Path\s+(\d+)', line)` (line 288). -/
def pathScan : Chars → Option Chars
  | [] => none
  | c :: t =>
    if [';', ' ', 'P', 'a', 't', 'h'].isPrefixOf (c :: t) then
      match pathTail ((c :: t).drop 6) with
      | some w => some w
      | none => pathScan t
    else pathScan t

def pathMatchS (l : String) : Option String :=
  (pathScan l.toList).map (fun cs => String.mk cs)

/-- Inner part of the coordinate regex after `G[01]`: greedy `\s*`, then
`X([\d.-]+)Y([\d.-]+)Z[\d.-]+F`.  The separators X, Y, Z, F are outside the
class `[\d.-]`, so the greedy captures are the maximal runs. -/
def afterG (t : Chars) : Option (Chars × Chars) :=
  match t.dropWhile pySpace with
  | x :: t2 =>
    if x = 'X' then
      (let g1 := t2.takeWhile numCls
       let t3 := t2.dropWhile numCls
       if g1 = [] then none else
       match t3 with
       | y :: t4 =>
         if y = 'Y' then
           (let g2 := t4.takeWhile numCls
            let t5 := t4.dropWhile numCls
            if g2 = [] then none else
            match t5 with
            | z :: t6 =>
              if z = 'Z' then
                (let g3 := t6.takeWhile numCls
                 let t7 := t6.dropWhile numCls
                 if g3 = [] then none else
                 match t7 with
                 | f :: _ => if f = 'F' then some (g1, g2) else none
                 | [] => none)
              else none
            | [] => none)
         else none
       | [] => none)
    else none
  | [] => none

/-- One anchored attempt of `G[01]\s*X([\d.-]+)Y([\d.-]+)Z[\d.-]+F`. -/
def tryCoord (cs : Chars) : Option (Chars × Chars) :=
  match cs with
  | c :: d :: t =>
    if c = 'G' ∧ (d = '0' ∨ d = '1') then afterG t else none
  | _ => none

/-- `coord_regex.search(line)` (line 285): leftmost successful position. -/
def coordScan : Chars → Option (Chars × Chars)
  | [] => none
  | c :: t =>
    match tryCoord (c :: t) with
    | some r => some r
    | none => coordScan t

def coordMatchS (l : String) : Option (String × String) :=
  (coordScan l.toList).map (fun p => (String.mk p.1, String.mk p.2))

/-- Numeric value of a digit run. -/
def digitsVal (cs : Chars) : ℕ :=
  cs.foldl (fun a c => 10 * a + (c.toNat - 48)) 0

/-- Python `float()` on a string drawn from the class `[\d.-]+`: an optional
single leading minus sign, then digits with at most one decimal point and at
least one digit in total; anything else raises `ValueError` (`none` here).
Exponents, infinities and whitespace cannot occur in this character class. -/
def parseFloat? (s : Chars) : Option ℚ :=
  let (neg, t) := match s with
    | '-' :: t => (true, t)
    | t => (false, t)
  let ip := t.takeWhile Char.isDigit
  let t1 := t.dropWhile Char.isDigit
  let sgn : ℚ := if neg then -1 else 1
  match t1 with
  | [] => if ip = [] then none else some (sgn * (digitsVal ip : ℚ))
  | '.' :: t2 =>
    let fp := t2.takeWhile Char.isDigit
    let t3 := t2.dropWhile Char.isDigit
    if t3 = [] then
      (if ip = [] ∧ fp = [] then none
       else some (sgn * ((digitsVal ip : ℚ) + (digitsVal fp : ℚ) / (10 : ℚ) ^ fp.length)))
    else none
  | _ => none

def parseFloatS (s : String) : Option ℚ := parseFloat? s.toList

/-- Largest k ≤ fuel with k * k ≤ n (linear search, structurally recursive). -/
def sqrtLin : ℕ → ℕ → ℕ
  | 0, _ => 0
  | f + 1, n => if (f + 1) * (f + 1) ≤ n then f + 1 else sqrtLin f n

def intSqrt (n : ℕ) : ℕ := sqrtLin n n

/-- Exact square root on nonnegative perfect-square rationals; on such inputs
it returns exactly the value `math.sqrt` computes.  All concrete runs in this
file are built from 3-4-5 style segments so that only this exact case is
exercised; the general theorems quantify over the distance function. -/
def ratSqrt (q : ℚ) : ℚ :=
  if 0 ≤ q.num ∧ intSqrt q.num.natAbs * intSqrt q.num.natAbs = q.num.natAbs
      ∧ intSqrt q.den * intSqrt q.den = q.den then
    (intSqrt q.num.natAbs : ℚ) / (intSqrt q.den : ℚ)
  else 0

/-- `math.sqrt((current_x - prev_x)**2 + (current_y - prev_y)**2)` (line 437),
restricted to the exact rational case. -/
def distEuclid (px py cx cy : ℚ) : ℚ :=
  ratSqrt ((cx - px) ^ 2 + (cy - py) ^ 2)

theorem ratSqrt_nonneg (q : ℚ) : 0 ≤ ratSqrt q := by
  unfold ratSqrt
  split
  · positivity
  · exact le_refl 0

theorem distEuclid_nonneg (px py cx cy : ℚ) : 0 ≤ distEuclid px py cx cy :=
  ratSqrt_nonneg _

/-! ## Data model of the driver state -/

/-- The four pre-authored maintenance blocks of the source
(COLOR1_SEQUENCE, COLOR2_SEQUENCE, COLOR3_SEQUENCE, WASHING_SEQUENCE). -/
inductive PaintSeq where
  | c1 | c2 | c3 | wash
deriving DecidableEq

/-- One element appended to `output_lines`: the fixed homing preamble, the
fixed ending block, a maintenance block, a (possibly normalized) source
line, or the synthetic stroke-recovery block with its saved coordinates
(which the source formats to three decimals). -/
inductive Emit where
  | homing
  | ending
  | seq (s : PaintSeq)
  | src (line : String)
  | recovery (x y : ℚ)
deriving DecidableEq

/-- Modelled Python exceptions that `optimize_gcode` can raise uncaught. -/
inductive PyErr where
  | unboundLocal
  | valueError (tok : String)
deriving DecidableEq

/-- LAYER_COLOR_MAP (lines 209-217). -/
def layerColorMap : List (String × PaintSeq × String) :=
  [("Green", PaintSeq.c1, "Color 1"), ("Blue", PaintSeq.c2, "Color 2"),
   ("Red", PaintSeq.c3, "Color 3"), ("C03", PaintSeq.c3, "Color 3"),
   ("C00", PaintSeq.c1, "Color 1"), ("Wash", PaintSeq.wash, "Washing"),
   ("default", PaintSeq.wash, "Washing")]

def lcLookup (k : String) : Option (PaintSeq × String) :=
  (layerColorMap.find? (fun p => p.1 == k)).map (fun p => p.2)

/-- Resolution with fallback to the default profile, as in lines 367-372
and 519-524 of the source. -/
def resolveColor (k : String) : PaintSeq × String :=
  match lcLookup k with
  | some p => p
  | none => (PaintSeq.wash, "Washing")

/-- Python dict read with default: `m.get(k, d)`. -/
def dget : List (String × ℚ) → String → ℚ → ℚ
  | [], _, d => d
  | p :: t, k, d => if p.1 = k then p.2 else dget t k d

/-- Python dict assignment `m[k] = v` (keys are unique in every run). -/
def dset : List (String × ℚ) → String → ℚ → List (String × ℚ)
  | [], k, v => [(k, v)]
  | p :: t, k, v => if p.1 = k then (k, v) :: t else p :: dset t k v

/-- `count[k] += 1` on the pickup counter; in the source the four keys are
pre-populated, so the append case never fires in an actual run. -/
def cinc : List (String × ℕ) → String → List (String × ℕ)
  | [], k => [(k, 1)]
  | p :: t, k => if p.1 = k then (k, p.2 + 1) :: t else p :: cinc t k

/-- The mutable locals of `optimize_gcode` (lines 261-301).
`previous_color_name` is a Python local that is only ever assigned inside
the M8 transition block; `none` models the unbound state whose read raises
`UnboundLocalError`. -/
structure OptState where
  total_length : ℚ
  accumulated_length : ℚ
  current_x : ℚ
  current_y : ℚ
  prev_x : ℚ
  prev_y : ℚ
  is_drawing : Bool
  current_segment_length : ℚ
  layer_lengths : List (String × ℚ)
  path_lengths : List (String × ℚ)
  current_path : String
  current_layer : String
  previous_layer : Option String
  pickup_segments : List (String × String × ℚ)
  color_pickup_count : List (String × ℕ)
  current_color_name : String
  current_color_seq : PaintSeq
  last_color_name : Option String
  previous_color_name : Option String
  found_m8 : Bool
  output : List Emit
deriving DecidableEq

/-- Initial state (lines 261-296), with the homing preamble emitted. -/
def initState : OptState :=
  { total_length := 0, accumulated_length := 0,
    current_x := 0, current_y := 0, prev_x := 0, prev_y := 0,
    is_drawing := false, current_segment_length := 0,
    layer_lengths := [], path_lengths := [],
    current_path := "None", current_layer := "default",
    previous_layer := none, pickup_segments := [],
    color_pickup_count :=
      [("Color 1", 0), ("Color 2", 0), ("Color 3", 0), ("Washing", 0)],
    current_color_name := "Washing", current_color_seq := PaintSeq.wash,
    last_color_name := none, previous_color_name := none,
    found_m8 := false, output := [Emit.homing] }

/-- Caller-supplied configuration of `optimize_gcode`. -/
structure Cfg where
  distance_threshold : ℚ
  force_multiplier : ℚ
  aggressive : Bool
deriving DecidableEq

/-! ## Lookahead helpers -/

/-- First layer label among the given lines (body of the loop at 320-327). -/
def findFirstLayer : List String → Option String
  | [] => none
  | l :: t =>
    match layerMatchS l with
    | some id => some id
    | none => findFirstLayer t

/-- M8 lookahead (lines 312-327): scan up to 6 lines starting right after
the M8 line for the first layer label. -/
def lookaheadLayer (lines : List String) (start : ℕ) : Option String :=
  findFirstLayer ((lines.drop start).take 6)

/-- Offset of the first line satisfying the Z-lift pattern. -/
def firstIdealIdx : List String → Option ℕ
  | [] => none
  | l :: t =>
    if idealMatch l then some 0 else (firstIdealIdx t).map (fun k => k + 1)

/-- `next_z_lift_in_range(lines, start_index, max_lookahead)` (lines 219-225):
offset of the first Z-lift within the window, or `none`. -/
def next_z_lift_in_range (lines : List String) (start maxLook : ℕ) : Option ℕ :=
  firstIdealIdx ((lines.drop start).take maxLook)

/-! ## Transition-safety classifier (lines 452-515) -/

/-- The urgency tier that set `is_clean_transition`; `skip` is NONE.
`aggrForced` transcribes the dead aggressive forced-with-multiplier branch
(lines 503-508) verbatim: its guard requires the G[01] test to have failed
and its body requires it to succeed. -/
inductive Tier where
  | skip | aggr | ideal | good | forced | aggrForced | emergency
deriving DecidableEq

/-- The GOOD condition (lines 474-477): previous line is a draw-type G1 and
the next line contains a G0. -/
def goodCond (lines : List String) (i : ℕ) : Bool :=
  decide (0 < i) && decide (i + 1 < lines.length)
    && g1xyMatch (lines.getD (i - 1) "") && g0Sub (lines.getD (i + 1) "")

/-- Faithful transcription of the decision logic executed once
`accumulated_length > distance_threshold` (lines 452-515), reporting which
branch set `is_clean_transition` (`skip` when none did). -/
def classifyTier (cfg : Cfg) (lines : List String) (i : ℕ) (line : String)
    (acc : ℚ) : Tier :=
  if cfg.aggressive then
    if g01Match line then Tier.aggr
    else if cfg.force_multiplier * cfg.distance_threshold ≤ acc ∧ g01Match line then
      Tier.aggrForced
    else if 3 * cfg.distance_threshold ≤ acc then Tier.emergency
    else Tier.skip
  else
    if idealMatch line then Tier.ideal
    else if goodCond lines i then Tier.good
    else if cfg.force_multiplier * cfg.distance_threshold ≤ acc then
      match next_z_lift_in_range lines i 20 with
      | some z =>
        if z < 10 then
          (if 3 * cfg.distance_threshold ≤ acc then Tier.emergency else Tier.skip)
        else if g01Match line then Tier.forced
        else if 3 * cfg.distance_threshold ≤ acc then Tier.emergency
        else Tier.skip
      | none =>
        if g01Match line then Tier.forced
        else if 3 * cfg.distance_threshold ≤ acc then Tier.emergency
        else Tier.skip
    else if 3 * cfg.distance_threshold ≤ acc then Tier.emergency
    else Tier.skip

/-! ## Maintenance injector (lines 518-569) -/

/-- Wash decision at a distance-triggered insertion (line 538):
`last_color_name` truthy and different from the resolved color name. -/
def washNeeded (st : OptState) (nm : String) : Bool :=
  match st.last_color_name with
  | some l => l != nm
  | none => false

/-- Stroke-interruption test (lines 556-559). -/
def recoveryNeeded (st : OptState) (lines : List String) (i : ℕ)
    (line : String) : Bool :=
  let nextG1 := decide (i + 1 < lines.length) && g1xyMatch (lines.getD (i + 1) "")
  let nextG0 := decide (i + 1 < lines.length) && g0Sub (lines.getD (i + 1) "")
  st.is_drawing && nextG1 && !(idealMatch line) && !nextG0

/-- The blocks appended by one maintenance insertion, in emission order:
optional wash, the pickup block, then (iff the interruption test holds) the
stroke-recovery block at the saved position (lines 537-569). -/
def maintEmits (st : OptState) (lines : List String) (i : ℕ)
    (line : String) : List Emit :=
  let nm := (resolveColor st.current_layer).2
  let sq := (resolveColor st.current_layer).1
  (if washNeeded st nm then [Emit.seq PaintSeq.wash] else [])
    ++ [Emit.seq sq]
    ++ (if recoveryNeeded st lines i line then
          [Emit.recovery st.current_x st.current_y] else [])

/-- State effect of one distance-triggered maintenance insertion
(lines 518-569): resolve the color with default fallback, update counters
and the event log, and reset the distance counters to zero. -/
def maintInsert (st : OptState) (lines : List String) (i : ℕ)
    (line : String) : OptState :=
  let nm := (resolveColor st.current_layer).2
  let sq := (resolveColor st.current_layer).1
  { st with
    current_color_name := nm,
    current_color_seq := sq,
    color_pickup_count :=
      cinc (if washNeeded st nm then cinc st.color_pickup_count "Washing"
            else st.color_pickup_count) nm,
    output := st.output ++ maintEmits st lines i line,
    pickup_segments :=
      st.pickup_segments ++ [(st.current_layer, nm, st.accumulated_length)],
    accumulated_length := 0,
    current_segment_length := 0,
    last_color_name := some nm }

/-! ## Layer transitions -/

/-- The M8 transition body (lines 331-355), entered when the looked-ahead
layer is mapped and differs from the previously active layer. -/
def m8Transition (st : OptState) (nl : String) (sq : PaintSeq)
    (nm : String) : OptState :=
  let pcn := if st.current_color_name = "" then "None" else st.current_color_name
  let st1 :=
    { st with
      layer_lengths := dset st.layer_lengths nl (dget st.layer_lengths nl 0),
      accumulated_length := 0,
      current_segment_length := 0,
      previous_color_name := some pcn,
      current_color_seq := sq,
      current_color_name := nm }
  let st2 :=
    if pcn ≠ "None" ∧ pcn ≠ nm then
      { st1 with output := st1.output ++ [Emit.seq PaintSeq.wash],
                 color_pickup_count := cinc st1.color_pickup_count "Washing" }
    else st1
  { st2 with output := st2.output ++ [Emit.seq sq],
             color_pickup_count := cinc st2.color_pickup_count nm,
             previous_layer := some nl,
             last_color_name := some nm }

/-- The whole M8 branch (lines 307-356): emit the line verbatim, set the
section flag, look ahead up to 6 lines for a layer label, and fire the
transition only when the label is mapped and differs from the previous
layer.  An unmapped label leaves every counter and color untouched. -/
def m8Handle (lines : List String) (i : ℕ) (line : String)
    (st : OptState) : OptState :=
  let st0 := { st with found_m8 := true, output := st.output ++ [Emit.src line] }
  match lookaheadLayer lines (i + 1) with
  | none => st0
  | some nl =>
    match lcLookup nl with
    | none => st0
    | some p =>
      let st1 := { st0 with current_layer := nl }
      if st1.previous_layer = some nl then st1
      else m8Transition st1 nl p.1 p.2

/-- The bare layer transition body (lines 363-386), entered when no layer
was ever assigned.  Reading `previous_color_name` at line 377 raises
`UnboundLocalError` when the M8 transition block has never assigned it. -/
def bareTransition (st : OptState) (id : String) : Except PyErr OptState :=
  let st1 :=
    { st with
      layer_lengths := dset st.layer_lengths id (dget st.layer_lengths id 0),
      accumulated_length := 0,
      current_color_seq := (resolveColor id).1,
      current_color_name := (resolveColor id).2 }
  match st1.previous_color_name with
  | none => Except.error PyErr.unboundLocal
  | some pcn =>
    let nm := (resolveColor id).2
    let st2 :=
      if pcn ≠ "None" ∧ pcn ≠ nm then
        { st1 with output := st1.output ++ [Emit.seq PaintSeq.wash],
                   color_pickup_count := cinc st1.color_pickup_count "Washing" }
      else st1
    Except.ok
      { st2 with output := st2.output ++ [Emit.seq (resolveColor id).1],
                 color_pickup_count := cinc st2.color_pickup_count nm,
                 previous_layer := some id,
                 last_color_name := some nm }

/-- The bare layer branch (lines 359-386): `current_layer` is reassigned
whenever the label is seen outside a section, but the transition itself
fires only when no layer was previously active. -/
def bareLayer (line : String) (st : OptState) : Except PyErr OptState :=
  match layerMatchS line with
  | none => Except.ok st
  | some id =>
    if st.found_m8 then Except.ok st
    else
      let st1 := { st with current_layer := id }
      if st1.previous_layer = none then bareTransition st1 id
      else Except.ok st1

/-- Lines 389-395: any layer label clears the section flag, and resets the
distance counters when the tracked layer differs from the previous one. -/
def labelReset (line : String) (st : OptState) : OptState :=
  match layerMatchS line with
  | none => st
  | some _ =>
    let st1 := { st with found_m8 := false }
    if (match st1.previous_layer with
        | none => true
        | some p => decide (st1.current_layer ≠ p)) then
      { st1 with accumulated_length := 0, current_segment_length := 0 }
    else st1

/-! ## Line formatting and the remaining per-line updates -/

/-- The fix-up chain of lines 397-409.  The first three patterns are
unanchored substring searches; the fourth is `^G1 (X.*Y.* F1200)$`, which on
a newline-free line holds exactly when the line starts with `G1 X`, ends
with ` F1200`, and has a `Y` after the `X` (the suffix contains no `Y`, and
too-short overlaps make the three conditions unsatisfiable together). -/
def g1xF1200 (l : String) : Bool :=
  let cs := l.toList
  decide (cs.take 4 = ['G', '1', ' ', 'X'])
    && (' ' :: ['F', '1', '2', '0', '0']).isSuffixOf cs
    && (cs.drop 4).contains 'Y'

def normalizeLine (l : String) : String :=
  if hasSubS "G1 Z3.0000" l then "G1 Z3 F1000;         ; Raise brush"
  else if hasSubS "G1 Z0.0000" l then "G1 Z0 F1000;         ; Position at surface"
  else if hasSubS "G1 Z-0.1000 F500" l then "G1 Z-0.1 F1000;      ; Plunge brush to painting depth"
  else if g1xF1200 l then "G0 " ++ (l.drop 3) ++ "   ; Move to starting position"
  else l

/-- Path-marker bookkeeping (lines 412-417): a new path id resets its
running length to zero unconditionally. -/
def pathUpdate (line : String) (st : OptState) : OptState :=
  match pathMatchS line with
  | none => st
  | some pid =>
    { st with current_path := pid, path_lengths := dset st.path_lengths pid 0 }

/-- Drawing-contact flag updates (lines 420-425): retract first, plunge
second, so a line matching both ends with the flag set. -/
def drawFlags (line : String) (st : OptState) : OptState :=
  let st1 := if retractMatch line then { st with is_drawing := false } else st
  if plungeMatch line then { st1 with is_drawing := true } else st1

/-- Distance accumulation and the insertion decision (lines 434-569),
executed when a previous position exists, the flag is set and the line
contains G1.  The state passed in already has the new coordinates. -/
def accumulate (dist : ℚ → ℚ → ℚ → ℚ → ℚ) (cfg : Cfg) (lines : List String)
    (i : ℕ) (line : String) (st : OptState) : OptState :=
  let s := dist st.prev_x st.prev_y st.current_x st.current_y
  let st1 :=
    { st with
      total_length := st.total_length + s,
      accumulated_length := st.accumulated_length + s,
      layer_lengths :=
        dset st.layer_lengths st.current_layer
          (dget st.layer_lengths st.current_layer 0 + s),
      path_lengths :=
        dset st.path_lengths st.current_path
          (dget st.path_lengths st.current_path 0 + s),
      current_segment_length := st.current_segment_length + s }
  if cfg.distance_threshold < st1.accumulated_length then
    if classifyTier cfg lines i line st1.accumulated_length ≠ Tier.skip then
      maintInsert st1 lines i line
    else st1
  else st1

/-- Coordinate extraction (lines 428-432) followed by accumulation: a
captured group that is not a valid float raises `ValueError` uncaught. -/
def coordHandle (dist : ℚ → ℚ → ℚ → ℚ → ℚ) (cfg : Cfg) (lines : List String)
    (i : ℕ) (line : String) (st : OptState) : Except PyErr OptState :=
  match coordMatchS line with
  | none => Except.ok st
  | some g =>
    match parseFloatS g.1 with
    | none => Except.error (PyErr.valueError g.1)
    | some x =>
      match parseFloatS g.2 with
      | none => Except.error (PyErr.valueError g.2)
      | some y =>
        let px := st.current_x
        let py := st.current_y
        let st1 := { st with prev_x := px, prev_y := py,
                             current_x := x, current_y := y }
        if (¬(px = 0 ∧ py = 0)) ∧ st1.is_drawing = true ∧ g1InLine line = true then
          Except.ok (accumulate dist cfg lines i line st1)
        else Except.ok st1

/-! ## The driver -/

/-- One iteration of the `while` loop (lines 303-574) on the line at
index `i`. -/
def stepLine (dist : ℚ → ℚ → ℚ → ℚ → ℚ) (cfg : Cfg) (lines : List String)
    (i : ℕ) (st : OptState) : Except PyErr OptState :=
  let line := lines.getD i ""
  if m8Match line then Except.ok (m8Handle lines i line st)
  else
    match bareLayer line st with
    | Except.error e => Except.error e
    | Except.ok st1 =>
      let st2 := labelReset line st1
      let st3 := { st2 with output := st2.output ++ [Emit.src (normalizeLine line)] }
      let st4 := pathUpdate line st3
      let st5 := drawFlags line st4
      coordHandle dist cfg lines i line st5

/-- Forward scan over the next `n` indices starting at `i`. -/
def runFrom (dist : ℚ → ℚ → ℚ → ℚ → ℚ) (cfg : Cfg) (lines : List String) :
    ℕ → ℕ → OptState → Except PyErr OptState
  | 0, _, st => Except.ok st
  | n + 1, i, st =>
    match stepLine dist cfg lines i st with
    | Except.error e => Except.error e
    | Except.ok st1 => runFrom dist cfg lines n (i + 1) st1

/-- State after the first `k` lines have been processed. -/
def processPrefix (dist : ℚ → ℚ → ℚ → ℚ → ℚ) (cfg : Cfg)
    (lines : List String) (k : ℕ) : Except PyErr OptState :=
  runFrom dist cfg lines (min k lines.length) 0 initState

/-- The whole of `optimize_gcode` after the file has been read: homing
preamble, the scan, then the fixed ending block (lines 292-583). -/
def optimize_gcode (dist : ℚ → ℚ → ℚ → ℚ → ℚ) (cfg : Cfg)
    (lines : List String) : Except PyErr OptState :=
  match runFrom dist cfg lines lines.length 0 initState with
  | Except.error e => Except.error e
  | Except.ok st => Except.ok { st with output := st.output ++ [Emit.ending] }

instance {ε α : Type} [DecidableEq ε] [DecidableEq α] :
    DecidableEq (Except ε α) := fun a b =>
  match a, b with
  | Except.error x, Except.error y =>
    if h : x = y then isTrue (by rw [h])
    else isFalse (fun hc => h (by injection hc))
  | Except.ok x, Except.ok y =>
    if h : x = y then isTrue (by rw [h])
    else isFalse (fun hc => h (by injection hc))
  | Except.error _, Except.ok _ => isFalse (fun hc => by injection hc)
  | Except.ok _, Except.error _ => isFalse (fun hc => by injection hc)

/-! ## Output projections -/

def isSeqEmit : Emit → Bool
  | Emit.seq _ => true
  | _ => false

/-- Number of maintenance blocks (wash or pickup) emitted so far. -/
def emitSeqCount (l : List Emit) : ℕ := l.countP isSeqEmit

def srcProj : Emit → Option String
  | Emit.src l => some l
  | _ => none

/-- The passed-through body lines of the output, in order. -/
def srcOf (l : List Emit) : List String := l.filterMap srcProj

/-- Sum of the values of a length dictionary. -/
def sumVals (m : List (String × ℚ)) : ℚ := (m.map (fun p => p.2)).sum

attribute [local semireducible] Rat.add Rat.sub Rat.mul Rat.inv

/-! ## Concrete runs used by counterexamples -/

/-- Accumulated distance and number of emitted maintenance blocks after the
whole run. -/
def runStats (dist : ℚ → ℚ → ℚ → ℚ → ℚ) (cfg : Cfg) (L : List String) :
    Option (ℚ × ℕ) :=
  (optimize_gcode dist cfg L).toOption.map
    (fun st => (st.accumulated_length, emitSeqCount st.output))

/-- Accumulated distance and number of emitted maintenance blocks after the
first `k` lines. -/
def prefixStats (dist : ℚ → ℚ → ℚ → ℚ → ℚ) (cfg : Cfg) (L : List String)
    (k : ℕ) : Option (ℚ × ℕ) :=
  (processPrefix dist cfg L k).toOption.map
    (fun st => (st.accumulated_length, emitSeqCount st.output))

/-- C1 (counterexample): with `distance_threshold = 0` the run on a single
non-accumulating line completes with `accumulated_length = 0`, no
maintenance block is ever emitted, and `0 < 3 × 0` is false — so the
counter has reached `3 × distance_threshold` with no maintenance event at
or before that point, refuting the claim for this configuration. -/
theorem c1_counterexample :
    runStats distEuclid ⟨0, 2, false⟩ ["G1 Z0F500"] = some (0, 0)
      ∧ ¬((0 : ℚ) < 3 * 0) := by
  constructor
  · decide
  · norm_num

/-- C2 (counterexample): after the M8 transition to Green (two maintenance
blocks: wash and pickup) the counter reaches 5 mm; the bare label
`;Layer Blue` on the next line resets it to 0 while the number of emitted
maintenance blocks stays 2 — the counter strictly decreases between two
consecutive maintenance events with no event in between. -/
theorem c2_counterexample :
    prefixStats distEuclid ⟨100, 2, false⟩
        ["M8", ";Layer Green", "G1 Z0F500", "G1 X3Y4Z0F100",
         "G1 X6Y8Z0F100", ";Layer Blue"] 5 = some (5, 2)
      ∧ prefixStats distEuclid ⟨100, 2, false⟩
          ["M8", ";Layer Green", "G1 Z0F500", "G1 X3Y4Z0F100",
           "G1 X6Y8Z0F100", ";Layer Blue"] 6 = some (0, 2)
      ∧ (0 : ℚ) < 5 := by
  refine ⟨by decide, by decide, by norm_num⟩

/-- C3 (code bug): a run whose very first layer assignment comes from a bare
`;Layer` marker aborts with `UnboundLocalError`, because the wash-decision
check of the bare branch (line 377) reads `previous_color_name`, which is
only ever assigned inside the M8 transition block (line 339). -/
theorem c3_bare_marker_crash :
    optimize_gcode distEuclid ⟨100, 2, false⟩ [";Layer Green"] =
      Except.error PyErr.unboundLocal := by
  decide

/-- C4 (counterexample): the malformed coordinate token `1.2.3` is matched
by the class `[\d.-]+` of the coordinate regex, so `float()` is reached and
raises an uncaught `ValueError`: the run aborts instead of passing the line
through. -/
theorem c4_counterexample :
    optimize_gcode distEuclid ⟨100, 2, false⟩ ["G1 X1.2.3Y5Z0F1200"] =
      Except.error (PyErr.valueError "1.2.3") := by
  decide

/-- C5 (counterexample): after an M8 transition to Green, a section marker
followed by the unmapped label `;Layer Purple` produces no transition at
all: the final state shows no wash, no pickup and no color update for it —
the pickup is skipped rather than falling back to the default profile. -/
theorem c5_counterexample :
    optimize_gcode distEuclid ⟨100, 2, false⟩
        ["M8", ";Layer Green", "M8", ";Layer Purple"] =
      Except.ok { initState with
        found_m8 := false,
        current_layer := "Green",
        previous_layer := some "Green",
        layer_lengths := [("Green", 0)],
        previous_color_name := some "Washing",
        current_color_name := "Color 1",
        current_color_seq := PaintSeq.c1,
        last_color_name := some "Color 1",
        color_pickup_count :=
          [("Color 1", 1), ("Color 2", 0), ("Color 3", 0), ("Washing", 1)],
        output := [Emit.homing, Emit.src "M8", Emit.seq PaintSeq.wash,
                   Emit.seq PaintSeq.c1, Emit.src ";Layer Green",
                   Emit.src "M8", Emit.src ";Layer Purple", Emit.ending] } := by
  decide

/-! ## Classifier lemmas -/

theorem hasSub_cons_of (p : Chars) (c : Char) (t : Chars)
    (h : hasSub p t = true) : hasSub p (c :: t) = true := by
  simp [hasSub, h]

theorem g01_of_tryCoord (cs : Chars) (r : Chars × Chars)
    (h : tryCoord cs = some r) :
    (hasSub ['G', '0'] cs || hasSub ['G', '1'] cs) = true := by
  match cs with
  | [] => simp [tryCoord] at h
  | [c] => simp [tryCoord] at h
  | c :: d :: t =>
    rw [show tryCoord (c :: d :: t) =
        (if c = 'G' ∧ (d = '0' ∨ d = '1') then afterG t else none) from rfl] at h
    by_cases hc : c = 'G' ∧ (d = '0' ∨ d = '1')
    · obtain ⟨hG, hd⟩ := hc
      subst hG
      rcases hd with h0 | h1
      · subst h0
        simp [hasSub, List.isPrefixOf]
      · subst h1
        simp [hasSub, List.isPrefixOf]
    · rw [if_neg hc] at h
      exact absurd h (by simp)

theorem g01_of_coordScan (cs : Chars) (r : Chars × Chars)
    (h : coordScan cs = some r) :
    (hasSub ['G', '0'] cs || hasSub ['G', '1'] cs) = true := by
  induction cs with
  | nil => simp [coordScan] at h
  | cons c t ih =>
    unfold coordScan at h
    cases htc : tryCoord (c :: t) with
    | some r2 => exact g01_of_tryCoord (c :: t) r2 htc
    | none =>
      rw [htc] at h
      have := ih h
      rcases Bool.or_eq_true_iff.mp this with h0 | h1
      · simp [hasSub_cons_of _ c _ h0]
      · simp [hasSub_cons_of _ c _ h1]

theorem g01_of_coordMatchS (l : String) (pr : String × String)
    (h : coordMatchS l = some pr) : g01Match l = true := by
  unfold coordMatchS at h
  cases hsc : coordScan l.toList with
  | none => rw [hsc] at h; exact absurd h (by simp)
  | some p =>
    have hg := g01_of_coordScan l.toList p hsc
    unfold g01Match hasSubS
    have e0 : ("G0".toList : Chars) = ['G', '0'] := by decide
    have e1 : ("G1".toList : Chars) = ['G', '1'] := by decide
    rw [e0, e1]
    exact hg

/-- C6: in normal mode, on a motion line where the since-maintenance
distance exceeds the threshold, neither IDEAL nor GOOD holds and the
distance has reached `force_multiplier × distance_threshold`: if a Z-lift
is found within the first 10 offsets of the 20-line lookahead the FORCED
classification is not produced (the decision is deferred; only the
separately specified EMERGENCY tier can still fire, claim C1); otherwise
the line, being a motion command, is classified FORCED.  Moreover the
FORCED classification is never produced while the distance is below
`force_multiplier × distance_threshold`. -/
theorem c6_forced_classification (cfg : Cfg) (lines : List String) (i : ℕ)
    (line : String) (acc : ℚ)
    (hAgg : cfg.aggressive = false)
    (_hGate : cfg.distance_threshold < acc)
    (hIdeal : idealMatch line = false)
    (hGood : goodCond lines i = false)
    (hMotion : g01Match line = true)
    (hForce : cfg.force_multiplier * cfg.distance_threshold ≤ acc) :
    (∀ z, next_z_lift_in_range lines i 20 = some z → z < 10 →
        classifyTier cfg lines i line acc ≠ Tier.forced)
      ∧ (next_z_lift_in_range lines i 20 = none →
          classifyTier cfg lines i line acc = Tier.forced)
      ∧ (∀ z, next_z_lift_in_range lines i 20 = some z → 10 ≤ z →
          classifyTier cfg lines i line acc = Tier.forced)
      ∧ (∀ acc2, classifyTier cfg lines i line acc2 = Tier.forced →
          cfg.force_multiplier * cfg.distance_threshold ≤ acc2) := by
  refine ⟨?_, ?_, ?_, ?_⟩
  · intro z hz hlt
    unfold classifyTier
    rw [hz]
    simp [hAgg, hIdeal, hGood, if_pos hForce, hlt]
    split <;> simp
  · intro hz
    unfold classifyTier
    rw [hz]
    simp [hAgg, hIdeal, hGood, if_pos hForce, hMotion]
  · intro z hz hge
    unfold classifyTier
    rw [hz]
    simp [hAgg, hIdeal, hGood, if_pos hForce, hMotion, Nat.not_lt.mpr hge]
  · intro acc2 h
    unfold classifyTier at h
    rw [hAgg] at h
    simp only [Bool.false_eq_true, if_false] at h
    rw [hIdeal] at h
    simp only [Bool.false_eq_true, if_false] at h
    rw [hGood] at h
    simp only [Bool.false_eq_true, if_false] at h
    by_cases hf : cfg.force_multiplier * cfg.distance_threshold ≤ acc2
    · exact hf
    · rw [if_neg hf] at h
      split at h <;> simp_all

/-- C7: in aggressive mode, whenever the classifier is reached (which in
the driver happens only on lines matched by the coordinate regex, hence
containing `G0` or `G1`), the very first check classifies the line as an
immediate insertion point, independently of `force_multiplier`; and the
separate aggressive forced-with-multiplier branch can never set the
insertion flag for any input whatsoever, so no execution takes it. -/
theorem c7_aggressive_immediate :
    (∀ (cfg : Cfg) (lines : List String) (i : ℕ) (line : String) (acc : ℚ)
        (pr : String × String), cfg.aggressive = true →
        coordMatchS line = some pr →
        classifyTier cfg lines i line acc = Tier.aggr)
      ∧ (∀ (cfg : Cfg) (lines : List String) (i : ℕ) (line : String)
          (acc : ℚ), classifyTier cfg lines i line acc ≠ Tier.aggrForced) := by
  constructor
  · intro cfg lines i line acc pr hAgg hCoord
    have hg := g01_of_coordMatchS line pr hCoord
    unfold classifyTier
    simp [hAgg, hg]
  · intro cfg lines i line acc
    unfold classifyTier
    by_cases hAgg : cfg.aggressive = true
    · rw [if_pos hAgg]
      by_cases hg : g01Match line = true
      · rw [if_pos hg]; simp
      · rw [if_neg hg]
        have hnot : ¬(cfg.force_multiplier * cfg.distance_threshold ≤ acc
            ∧ g01Match line = true) := fun hc => hg hc.2
        rw [if_neg hnot]
        split <;> simp
    · rw [if_neg hAgg]
      rcases hnz : next_z_lift_in_range lines i 20 with _ | z <;>
        · simp only [hnz]
          split_ifs <;> simp

/-- Witness for C6: on a configuration with threshold 1 and multiplier 2,
a drawing motion line with accumulated distance 2 and no Z-lift anywhere in
the lookahead is classified FORCED. -/
theorem c6_forced_classification_witness :
    classifyTier ⟨1, 2, false⟩ ["G1 X0Y1Z0F5"] 0 "G1 X0Y1Z0F5" 2 =
      Tier.forced :=
  (c6_forced_classification ⟨1, 2, false⟩ ["G1 X0Y1Z0F5"] 0 "G1 X0Y1Z0F5" 2
    rfl (by norm_num) (by decide) (by decide) (by decide)
    (by norm_num)).2.1 (by decide)

/-- Witness for C7: in aggressive mode a coordinate-matching line is
classified as the immediate insertion tier. -/
theorem c7_aggressive_immediate_witness :
    classifyTier ⟨1, 2, true⟩ [] 0 "G1 X3Y4Z0F100" 5 = Tier.aggr :=
  c7_aggressive_immediate.1 ⟨1, 2, true⟩ [] 0 "G1 X3Y4Z0F100" 5 ("3", "4")
    rfl (by decide)

/-- Bool-to-Prop reading of the stroke-interruption test. -/
theorem recoveryNeeded_iff (st : OptState) (lines : List String) (i : ℕ)
    (line : String) :
    recoveryNeeded st lines i line = true ↔
      (st.is_drawing = true
        ∧ (i + 1 < lines.length ∧ g1xyMatch (lines.getD (i + 1) "") = true)
        ∧ idealMatch line = false
        ∧ ¬(i + 1 < lines.length ∧ g0Sub (lines.getD (i + 1) "") = true)) := by
  by_cases hl : i + 1 < lines.length
  · cases hd : st.is_drawing <;>
      cases hg1 : g1xyMatch (lines.getD (i + 1) "") <;>
        cases hni : idealMatch line <;>
          cases hg0 : g0Sub (lines.getD (i + 1) "") <;>
            simp_all [recoveryNeeded, decide_eq_true hl]
  · have hdt : decide (i + 1 < lines.length) = false := decide_eq_false hl
    simp [recoveryNeeded, hdt, hl]

/-- C8: a maintenance insertion emits the stroke-recovery block iff the
drawing flag is set, the next line is a draw-type G1 motion, the current
line is not itself an IDEAL Z-lift, and the next line is not a G0
reposition; when emitted, it comes immediately after the injected wash and
pickup blocks and carries the saved X/Y position (which the source renders
to three decimals). -/
theorem c8_recovery_iff (st : OptState) (lines : List String) (i : ℕ)
    (line : String) :
    ((∃ x y, Emit.recovery x y ∈ maintEmits st lines i line) ↔
      (st.is_drawing = true
        ∧ (i + 1 < lines.length ∧ g1xyMatch (lines.getD (i + 1) "") = true)
        ∧ idealMatch line = false
        ∧ ¬(i + 1 < lines.length ∧ g0Sub (lines.getD (i + 1) "") = true)))
    ∧ (recoveryNeeded st lines i line = true →
        maintEmits st lines i line =
          (if washNeeded st (resolveColor st.current_layer).2 then
            [Emit.seq PaintSeq.wash] else [])
            ++ [Emit.seq (resolveColor st.current_layer).1]
            ++ [Emit.recovery st.current_x st.current_y]) := by
  constructor
  · rw [← recoveryNeeded_iff st lines i line]
    unfold maintEmits
    cases hr : recoveryNeeded st lines i line with
    | true =>
      simp only [hr, if_true]
      constructor
      · intro _; trivial
      · intro _
        refine ⟨st.current_x, st.current_y, ?_⟩
        simp
    | false =>
      simp only [hr, if_false]
      constructor
      · intro hex
        obtain ⟨x, y, hmem⟩ := hex
        rcases List.mem_append.mp hmem with hm | hm
        · rcases List.mem_append.mp hm with hm2 | hm2
          · split at hm2 <;> simp_all
          · simp_all
        · simp_all
      · intro hc; exact absurd hc (by simp)
  · intro hr
    unfold maintEmits
    rw [hr]
    simp

/-- Concrete insertion state for the C8 witness. -/
def c8wState : OptState :=
  { initState with
    is_drawing := true,
    current_x := 7,
    current_y := 9,
    last_color_name := some "Color 2" }

/-- Witness for C8: a concrete insertion state with the flag set, a
draw-type next line, a non-lift current line and a non-G0 next line does
emit wash, pickup and then the recovery block. -/
theorem c8_recovery_iff_witness :
    maintEmits c8wState ["G1 X1Y1Z0F100", "G1 X2Y2Z0F100"] 0
        "G1 X1Y1Z0F100" =
      [Emit.seq PaintSeq.wash, Emit.seq PaintSeq.wash, Emit.recovery 7 9] :=
  ((c8_recovery_iff c8wState ["G1 X1Y1Z0F100", "G1 X2Y2Z0F100"] 0
    "G1 X1Y1Z0F100").2 (by decide)).trans (by decide)

/-! ## Dictionary lemmas -/

theorem sumVals_dset_dget (m : List (String × ℚ)) (k : String) :
    sumVals (dset m k (dget m k 0)) = sumVals m := by
  induction m with
  | nil => simp [dset, dget, sumVals]
  | cons p t ih =>
    by_cases hk : p.1 = k
    · simp [dset, dget, hk, sumVals]
    · simp only [dset, dget, hk, if_neg hk, if_false]
      simp only [sumVals, List.map_cons, List.sum_cons] at *
      rw [ih]

theorem sumVals_dset_add (m : List (String × ℚ)) (k : String) (s : ℚ) :
    sumVals (dset m k (dget m k 0 + s)) = sumVals m + s := by
  induction m with
  | nil => simp [dset, dget, sumVals]
  | cons p t ih =>
    by_cases hk : p.1 = k
    · simp [dset, dget, hk, sumVals]
      ring
    · simp only [dset, dget, hk, if_neg hk, if_false]
      simp only [sumVals, List.map_cons, List.sum_cons] at *
      rw [ih]
      ring

/-! ## Per-helper state lemmas -/

theorem maintInsert_acc (st : OptState) (lines : List String) (i : ℕ)
    (line : String) : (maintInsert st lines i line).accumulated_length = 0 :=
  rfl

theorem m8Transition_acc (st : OptState) (nl : String) (sq : PaintSeq)
    (nm : String) : (m8Transition st nl sq nm).accumulated_length = 0 := by
  simp only [m8Transition]
  split <;> split <;> rfl

theorem bareTransition_acc (st : OptState) (id : String) (st1 : OptState)
    (h : bareTransition st id = Except.ok st1) :
    st1.accumulated_length = 0 := by
  unfold bareTransition at h
  cases hp : st.previous_color_name with
  | none => rw [hp] at h; exact absurd h (by simp)
  | some pcn =>
    rw [hp] at h
    dsimp only at h
    split at h <;> (injection h with h1; rw [← h1])

theorem m8Handle_acc_or (lines : List String) (i : ℕ) (line : String)
    (st : OptState) :
    (m8Handle lines i line st).accumulated_length = st.accumulated_length
      ∨ (m8Handle lines i line st).accumulated_length = 0 := by
  unfold m8Handle
  split
  · left; rfl
  · split
    · left; rfl
    · dsimp only
      split
      · left; rfl
      · right; exact m8Transition_acc _ _ _ _

theorem bareLayer_acc_or (line : String) (st st1 : OptState)
    (h : bareLayer line st = Except.ok st1) :
    st1.accumulated_length = st.accumulated_length
      ∨ st1.accumulated_length = 0 := by
  unfold bareLayer at h
  cases hlm : layerMatchS line with
  | none =>
    rw [hlm] at h
    simp only at h
    injection h with h1
    left; rw [← h1]
  | some id =>
    rw [hlm] at h
    simp only at h
    split at h
    · injection h with h1
      left; rw [← h1]
    · split at h
      · right; exact bareTransition_acc _ _ _ h
      · injection h with h1
        left; rw [← h1]

theorem labelReset_acc_or (line : String) (st : OptState) :
    (labelReset line st).accumulated_length = st.accumulated_length
      ∨ (labelReset line st).accumulated_length = 0 := by
  unfold labelReset
  cases layerMatchS line with
  | none => left; rfl
  | some _ =>
    simp only
    split
    · right; rfl
    · left; rfl

theorem pathUpdate_acc (line : String) (st : OptState) :
    (pathUpdate line st).accumulated_length = st.accumulated_length := by
  unfold pathUpdate
  cases pathMatchS line <;> rfl

theorem drawFlags_acc (line : String) (st : OptState) :
    (drawFlags line st).accumulated_length = st.accumulated_length := by
  unfold drawFlags
  split <;> split <;> rfl

/-- Every branch of the classifier that yields NONE carries the guard that
the accumulated distance is still below three thresholds. -/
theorem classifyTier_ne_skip (cfg : Cfg) (lines : List String) (i : ℕ)
    (line : String) (acc : ℚ)
    (h3 : 3 * cfg.distance_threshold ≤ acc) :
    classifyTier cfg lines i line acc ≠ Tier.skip := by
  intro hsk
  unfold classifyTier at hsk
  by_cases hAgg : cfg.aggressive = true
  · rw [if_pos hAgg] at hsk
    split_ifs at hsk <;> simp_all
  · rw [if_neg hAgg] at hsk
    rcases hnz : next_z_lift_in_range lines i 20 with _ | z <;>
      · simp only [hnz] at hsk
        split_ifs at hsk <;> simp_all

/-! ## Generic invariant propagation -/

theorem runFrom_inv (dist : ℚ → ℚ → ℚ → ℚ → ℚ) (cfg : Cfg)
    (lines : List String) (P : OptState → Prop)
    (hstep : ∀ i st st', P st →
      stepLine dist cfg lines i st = Except.ok st' → P st') :
    ∀ n i st st', P st →
      runFrom dist cfg lines n i st = Except.ok st' → P st' := by
  intro n
  induction n with
  | zero =>
    intro i st st' hp hr
    unfold runFrom at hr
    injection hr with h1
    rw [← h1]; exact hp
  | succ n ih =>
    intro i st st' hp hr
    unfold runFrom at hr
    cases hs : stepLine dist cfg lines i st with
    | error e => rw [hs] at hr; exact absurd hr (by simp)
    | ok st1 =>
      rw [hs] at hr
      exact ih (i + 1) st1 st' (hstep i st st1 hp hs) hr

theorem accumulate_acc_lt (dist : ℚ → ℚ → ℚ → ℚ → ℚ) (cfg : Cfg)
    (lines : List String) (i : ℕ) (line : String) (st : OptState)
    (hT : 0 < cfg.distance_threshold) :
    (accumulate dist cfg lines i line st).accumulated_length <
      3 * cfg.distance_threshold := by
  have h0 : (0 : ℚ) < 3 * cfg.distance_threshold := by linarith
  unfold accumulate
  dsimp only
  split
  · split
    · rw [maintInsert_acc]
      exact h0
    · rename_i hgate hne
      have hsk := not_not.mp hne
      by_contra hge
      push_neg at hge
      exact classifyTier_ne_skip cfg lines i line _ hge hsk
  · rename_i hgate
    have hle := le_of_not_lt hgate
    show st.accumulated_length + dist st.prev_x st.prev_y st.current_x
      st.current_y < 3 * cfg.distance_threshold
    linarith

theorem coordHandle_acc_lt (dist : ℚ → ℚ → ℚ → ℚ → ℚ) (cfg : Cfg)
    (lines : List String) (i : ℕ) (line : String) (st st' : OptState)
    (hT : 0 < cfg.distance_threshold)
    (hacc : st.accumulated_length < 3 * cfg.distance_threshold)
    (h : coordHandle dist cfg lines i line st = Except.ok st') :
    st'.accumulated_length < 3 * cfg.distance_threshold := by
  unfold coordHandle at h
  cases hc : coordMatchS line with
  | none =>
    rw [hc] at h
    injection h with h1
    rw [← h1]; exact hacc
  | some g =>
    rw [hc] at h
    dsimp only at h
    cases hp1 : parseFloatS g.1 with
    | none => rw [hp1] at h; exact absurd h (by simp)
    | some x =>
      rw [hp1] at h
      cases hp2 : parseFloatS g.2 with
      | none => rw [hp2] at h; exact absurd h (by simp)
      | some y =>
        rw [hp2] at h
        dsimp only at h
        split at h
        · injection h with h1
          rw [← h1]
          exact accumulate_acc_lt dist cfg lines i line _ hT
        · injection h with h1
          rw [← h1]
          exact hacc

theorem stepLine_acc_lt (dist : ℚ → ℚ → ℚ → ℚ → ℚ) (cfg : Cfg)
    (lines : List String) (i : ℕ) (st st' : OptState)
    (hT : 0 < cfg.distance_threshold)
    (hacc : st.accumulated_length < 3 * cfg.distance_threshold)
    (h : stepLine dist cfg lines i st = Except.ok st') :
    st'.accumulated_length < 3 * cfg.distance_threshold := by
  have h0 : (0 : ℚ) < 3 * cfg.distance_threshold := by linarith
  unfold stepLine at h
  by_cases hm8 : m8Match (lines.getD i "") = true
  · rw [if_pos hm8] at h
    injection h with h1
    rw [← h1]
    rcases m8Handle_acc_or lines i (lines.getD i "") st with he | he <;> rw [he]
    · exact hacc
    · exact h0
  · rw [if_neg hm8] at h
    cases hb : bareLayer (lines.getD i "") st with
    | error e => rw [hb] at h; exact absurd h (by simp)
    | ok st1 =>
      rw [hb] at h
      dsimp only at h
      have hacc1 : st1.accumulated_length < 3 * cfg.distance_threshold := by
        rcases bareLayer_acc_or (lines.getD i "") st st1 hb with he | he <;>
          rw [he]
        · exact hacc
        · exact h0
      have hacc2 :
          (labelReset (lines.getD i "") st1).accumulated_length <
            3 * cfg.distance_threshold := by
        rcases labelReset_acc_or (lines.getD i "") st1 with he | he <;> rw [he]
        · exact hacc1
        · exact h0
      refine coordHandle_acc_lt dist cfg lines i (lines.getD i "") _ st' hT
        ?_ h
      rw [drawFlags_acc, pathUpdate_acc]
      exact hacc2

/-- C1 (amended): for every input, every distance function and every
configuration with a positive `distance_threshold`, after the driver has
processed any number of lines the since-maintenance counter is strictly
below `3 × distance_threshold` — on the line that would reach the bound,
the emergency branch forces an insertion that resets the counter to zero.
(The restriction to positive thresholds is forced by the counterexample:
with `distance_threshold = 0` the counter equals the bound from the start
and no maintenance is ever triggered.) -/
theorem c1_emergency_bound (dist : ℚ → ℚ → ℚ → ℚ → ℚ) (cfg : Cfg)
    (lines : List String) (k : ℕ) (st : OptState)
    (hT : 0 < cfg.distance_threshold)
    (h : processPrefix dist cfg lines k = Except.ok st) :
    st.accumulated_length < 3 * cfg.distance_threshold := by
  have hinit : initState.accumulated_length < 3 * cfg.distance_threshold := by
    show (0 : ℚ) < 3 * cfg.distance_threshold
    linarith
  exact runFrom_inv dist cfg lines
    (fun s => s.accumulated_length < 3 * cfg.distance_threshold)
    (fun i s s' hp hs => stepLine_acc_lt dist cfg lines i s s' hT hp hs)
    (min k lines.length) 0 initState st hinit h

/-- Witness for C1: a concrete one-line run with threshold 1 stays below 3. -/
theorem c1_emergency_bound_witness :
    ({ initState with
      is_drawing := true,
      output := [Emit.homing, Emit.src "G1 Z0F500"] }
        : OptState).accumulated_length < 3 * (1 : ℚ) :=
  c1_emergency_bound distEuclid ⟨1, 2, false⟩ ["G1 Z0F500"] 1
    { initState with
      is_drawing := true,
      output := [Emit.homing, Emit.src "G1 Z0F500"] }
    (by norm_num) (by decide)

/-! ## Conservation of the total/per-layer length relation -/

theorem maintInsert_total (st : OptState) (lines : List String) (i : ℕ)
    (line : String) : (maintInsert st lines i line).total_length =
      st.total_length := rfl

theorem maintInsert_layers (st : OptState) (lines : List String) (i : ℕ)
    (line : String) : (maintInsert st lines i line).layer_lengths =
      st.layer_lengths := rfl

theorem m8Transition_sum (st : OptState) (nl : String) (sq : PaintSeq)
    (nm : String) (hp : st.total_length = sumVals st.layer_lengths) :
    (m8Transition st nl sq nm).total_length =
      sumVals (m8Transition st nl sq nm).layer_lengths := by
  simp only [m8Transition]
  split <;> split <;>
    · show st.total_length =
        sumVals (dset st.layer_lengths nl (dget st.layer_lengths nl 0))
      rw [sumVals_dset_dget]
      exact hp

theorem m8Handle_sum (lines : List String) (i : ℕ) (line : String)
    (st : OptState) (hp : st.total_length = sumVals st.layer_lengths) :
    (m8Handle lines i line st).total_length =
      sumVals (m8Handle lines i line st).layer_lengths := by
  unfold m8Handle
  split
  · exact hp
  · split
    · exact hp
    · dsimp only
      split
      · exact hp
      · exact m8Transition_sum _ _ _ _ hp

theorem bareTransition_sum (st : OptState) (id : String) (st1 : OptState)
    (h : bareTransition st id = Except.ok st1)
    (hp : st.total_length = sumVals st.layer_lengths) :
    st1.total_length = sumVals st1.layer_lengths := by
  unfold bareTransition at h
  cases hpc : st.previous_color_name with
  | none => rw [hpc] at h; exact absurd h (by simp)
  | some pcn =>
    rw [hpc] at h
    dsimp only at h
    split at h <;>
      · injection h with h1
        rw [← h1]
        show st.total_length =
          sumVals (dset st.layer_lengths id (dget st.layer_lengths id 0))
        rw [sumVals_dset_dget]
        exact hp

theorem bareLayer_sum (line : String) (st st1 : OptState)
    (h : bareLayer line st = Except.ok st1)
    (hp : st.total_length = sumVals st.layer_lengths) :
    st1.total_length = sumVals st1.layer_lengths := by
  unfold bareLayer at h
  cases hlm : layerMatchS line with
  | none =>
    rw [hlm] at h
    simp only at h
    injection h with h1
    rw [← h1]; exact hp
  | some id =>
    rw [hlm] at h
    simp only at h
    split at h
    · injection h with h1
      rw [← h1]; exact hp
    · split at h
      · exact bareTransition_sum _ _ _ h hp
      · injection h with h1
        rw [← h1]; exact hp

theorem labelReset_sum (line : String) (st : OptState)
    (hp : st.total_length = sumVals st.layer_lengths) :
    (labelReset line st).total_length =
      sumVals (labelReset line st).layer_lengths := by
  unfold labelReset
  cases layerMatchS line with
  | none => exact hp
  | some _ =>
    dsimp only
    split
    · exact hp
    · exact hp

theorem pathUpdate_sum (line : String) (st : OptState)
    (hp : st.total_length = sumVals st.layer_lengths) :
    (pathUpdate line st).total_length =
      sumVals (pathUpdate line st).layer_lengths := by
  unfold pathUpdate
  cases pathMatchS line with
  | none => exact hp
  | some pid => exact hp

theorem drawFlags_sum (line : String) (st : OptState)
    (hp : st.total_length = sumVals st.layer_lengths) :
    (drawFlags line st).total_length =
      sumVals (drawFlags line st).layer_lengths := by
  unfold drawFlags
  split <;> split <;> exact hp

theorem accumulate_sum (dist : ℚ → ℚ → ℚ → ℚ → ℚ) (cfg : Cfg)
    (lines : List String) (i : ℕ) (line : String) (st : OptState)
    (hp : st.total_length = sumVals st.layer_lengths) :
    (accumulate dist cfg lines i line st).total_length =
      sumVals (accumulate dist cfg lines i line st).layer_lengths := by
  have key : st.total_length + dist st.prev_x st.prev_y st.current_x
        st.current_y =
      sumVals (dset st.layer_lengths st.current_layer
        (dget st.layer_lengths st.current_layer 0
          + dist st.prev_x st.prev_y st.current_x st.current_y)) := by
    rw [sumVals_dset_add, hp]
  unfold accumulate
  dsimp only
  split
  · split
    · rw [maintInsert_total, maintInsert_layers]
      exact key
    · exact key
  · exact key

theorem coordHandle_sum (dist : ℚ → ℚ → ℚ → ℚ → ℚ) (cfg : Cfg)
    (lines : List String) (i : ℕ) (line : String) (st st1 : OptState)
    (h : coordHandle dist cfg lines i line st = Except.ok st1)
    (hp : st.total_length = sumVals st.layer_lengths) :
    st1.total_length = sumVals st1.layer_lengths := by
  unfold coordHandle at h
  cases hc : coordMatchS line with
  | none =>
    rw [hc] at h
    injection h with h1
    rw [← h1]; exact hp
  | some g =>
    rw [hc] at h
    dsimp only at h
    cases hp1 : parseFloatS g.1 with
    | none => rw [hp1] at h; exact absurd h (by simp)
    | some x =>
      rw [hp1] at h
      cases hp2 : parseFloatS g.2 with
      | none => rw [hp2] at h; exact absurd h (by simp)
      | some y =>
        rw [hp2] at h
        dsimp only at h
        split at h
        · injection h with h1
          rw [← h1]
          exact accumulate_sum dist cfg lines i line _ hp
        · injection h with h1
          rw [← h1]
          exact hp

theorem stepLine_sum (dist : ℚ → ℚ → ℚ → ℚ → ℚ) (cfg : Cfg)
    (lines : List String) (i : ℕ) (st st1 : OptState)
    (hp : st.total_length = sumVals st.layer_lengths)
    (h : stepLine dist cfg lines i st = Except.ok st1) :
    st1.total_length = sumVals st1.layer_lengths := by
  unfold stepLine at h
  by_cases hm8 : m8Match (lines.getD i "") = true
  · rw [if_pos hm8] at h
    injection h with h1
    rw [← h1]
    exact m8Handle_sum lines i (lines.getD i "") st hp
  · rw [if_neg hm8] at h
    cases hb : bareLayer (lines.getD i "") st with
    | error e => rw [hb] at h; exact absurd h (by simp)
    | ok stb =>
      rw [hb] at h
      dsimp only at h
      refine coordHandle_sum dist cfg lines i (lines.getD i "") _ st1 h ?_
      exact drawFlags_sum _ _ (pathUpdate_sum _ _
        (labelReset_sum _ _ (bareLayer_sum _ _ _ hb hp)))

/-- C10: whenever `optimize_gcode` completes, the reported total drawn
length equals the sum of the values of the per-layer length dictionary:
every distance increment is added both to `total_length` and to the entry
of the current layer, and entries are otherwise created with value zero. -/
theorem c10_total_layer_sum (dist : ℚ → ℚ → ℚ → ℚ → ℚ) (cfg : Cfg)
    (lines : List String) (st : OptState)
    (h : optimize_gcode dist cfg lines = Except.ok st) :
    st.total_length = sumVals st.layer_lengths := by
  unfold optimize_gcode at h
  cases hr : runFrom dist cfg lines lines.length 0 initState with
  | error e => rw [hr] at h; exact absurd h (by simp)
  | ok st0 =>
    rw [hr] at h
    injection h with h1
    rw [← h1]
    show st0.total_length = sumVals st0.layer_lengths
    refine runFrom_inv dist cfg lines
      (fun s => s.total_length = sumVals s.layer_lengths)
      (fun i s s1 hp hs => stepLine_sum dist cfg lines i s s1 hp hs)
      lines.length 0 initState st0 ?_ hr
    show (0 : ℚ) = sumVals []
    simp [sumVals]

/-- Witness for C10 on the empty input. -/
theorem c10_total_layer_sum_witness :
    ({ initState with output := [Emit.homing, Emit.ending] }
        : OptState).total_length =
      sumVals ({ initState with output := [Emit.homing, Emit.ending] }
        : OptState).layer_lengths :=
  c10_total_layer_sum distEuclid ⟨100, 2, false⟩ []
    { initState with output := [Emit.homing, Emit.ending] } (by decide)

/-! ## Passed-through body lines -/

/-- What one input line contributes to the passed-through output: M8 lines
verbatim (line 309), all others through the fix-up chain (lines 397-409). -/
def emittedBody (l : String) : String :=
  if m8Match l then l else normalizeLine l

theorem srcOf_append (a b : List Emit) :
    srcOf (a ++ b) = srcOf a ++ srcOf b := by
  simp [srcOf, List.filterMap_append]

theorem srcOf_seq (s : PaintSeq) : srcOf [Emit.seq s] = [] := rfl

theorem srcOf_src (l : String) : srcOf [Emit.src l] = [l] := rfl

theorem srcOf_maintEmits (st : OptState) (lines : List String) (i : ℕ)
    (line : String) : srcOf (maintEmits st lines i line) = [] := by
  unfold maintEmits
  rw [srcOf_append, srcOf_append]
  split <;> split <;> rfl

theorem maintInsert_src (st : OptState) (lines : List String) (i : ℕ)
    (line : String) :
    srcOf (maintInsert st lines i line).output = srcOf st.output := by
  show srcOf (st.output ++ maintEmits st lines i line) = srcOf st.output
  rw [srcOf_append, srcOf_maintEmits, List.append_nil]

theorem m8Transition_src (st : OptState) (nl : String) (sq : PaintSeq)
    (nm : String) :
    srcOf (m8Transition st nl sq nm).output = srcOf st.output := by
  simp only [m8Transition]
  split <;> split <;> (rw [srcOf_append] <;> try rw [srcOf_append]) <;>
    simp [srcOf, srcProj]

theorem m8Handle_src (lines : List String) (i : ℕ) (line : String)
    (st : OptState) :
    srcOf (m8Handle lines i line st).output = srcOf st.output ++ [line] := by
  unfold m8Handle
  split
  · rw [srcOf_append, srcOf_src]
  · split
    · rw [srcOf_append, srcOf_src]
    · dsimp only
      split
      · rw [srcOf_append, srcOf_src]
      · rw [m8Transition_src]
        rw [srcOf_append, srcOf_src]

theorem bareTransition_src (st : OptState) (id : String) (st1 : OptState)
    (h : bareTransition st id = Except.ok st1) :
    srcOf st1.output = srcOf st.output := by
  unfold bareTransition at h
  cases hpc : st.previous_color_name with
  | none => rw [hpc] at h; exact absurd h (by simp)
  | some pcn =>
    rw [hpc] at h
    dsimp only at h
    split at h <;>
      · injection h with h1
        rw [← h1]
        dsimp only
        rw [srcOf_append] <;> try rw [srcOf_append]
        simp [srcOf, srcProj]

theorem bareLayer_src (line : String) (st st1 : OptState)
    (h : bareLayer line st = Except.ok st1) :
    srcOf st1.output = srcOf st.output := by
  unfold bareLayer at h
  cases hlm : layerMatchS line with
  | none =>
    rw [hlm] at h
    simp only at h
    injection h with h1
    rw [← h1]
  | some id =>
    rw [hlm] at h
    simp only at h
    split at h
    · injection h with h1
      rw [← h1]
    · split at h
      · have hbt := bareTransition_src _ _ _ h
        exact hbt
      · injection h with h1
        rw [← h1]

theorem labelReset_output (line : String) (st : OptState) :
    (labelReset line st).output = st.output := by
  unfold labelReset
  cases layerMatchS line with
  | none => rfl
  | some _ =>
    dsimp only
    split <;> rfl

theorem pathUpdate_output (line : String) (st : OptState) :
    (pathUpdate line st).output = st.output := by
  unfold pathUpdate
  cases pathMatchS line <;> rfl

theorem drawFlags_output (line : String) (st : OptState) :
    (drawFlags line st).output = st.output := by
  unfold drawFlags
  split <;> split <;> rfl

theorem accumulate_src (dist : ℚ → ℚ → ℚ → ℚ → ℚ) (cfg : Cfg)
    (lines : List String) (i : ℕ) (line : String) (st : OptState) :
    srcOf (accumulate dist cfg lines i line st).output =
      srcOf st.output := by
  unfold accumulate
  dsimp only
  split
  · split
    · rw [maintInsert_src]
    · rfl
  · rfl

theorem coordHandle_src (dist : ℚ → ℚ → ℚ → ℚ → ℚ) (cfg : Cfg)
    (lines : List String) (i : ℕ) (line : String) (st st1 : OptState)
    (h : coordHandle dist cfg lines i line st = Except.ok st1) :
    srcOf st1.output = srcOf st.output := by
  unfold coordHandle at h
  cases hc : coordMatchS line with
  | none =>
    rw [hc] at h
    injection h with h1
    rw [← h1]
  | some g =>
    rw [hc] at h
    dsimp only at h
    cases hp1 : parseFloatS g.1 with
    | none => rw [hp1] at h; exact absurd h (by simp)
    | some x =>
      rw [hp1] at h
      cases hp2 : parseFloatS g.2 with
      | none => rw [hp2] at h; exact absurd h (by simp)
      | some y =>
        rw [hp2] at h
        dsimp only at h
        split at h <;>
          · injection h with h1
            rw [← h1]
            try rw [accumulate_src]

theorem stepLine_src (dist : ℚ → ℚ → ℚ → ℚ → ℚ) (cfg : Cfg)
    (lines : List String) (i : ℕ) (st st1 : OptState)
    (h : stepLine dist cfg lines i st = Except.ok st1) :
    srcOf st1.output =
      srcOf st.output ++ [emittedBody (lines.getD i "")] := by
  unfold stepLine at h
  unfold emittedBody
  by_cases hm8 : m8Match (lines.getD i "") = true
  · rw [if_pos hm8] at h
    rw [if_pos hm8]
    injection h with h1
    rw [← h1]
    exact m8Handle_src lines i (lines.getD i "") st
  · rw [if_neg hm8] at h
    rw [if_neg hm8]
    cases hb : bareLayer (lines.getD i "") st with
    | error e => rw [hb] at h; exact absurd h (by simp)
    | ok stb =>
      rw [hb] at h
      dsimp only at h
      rw [coordHandle_src dist cfg lines i (lines.getD i "") _ st1 h]
      rw [drawFlags_output, pathUpdate_output]
      show srcOf ((labelReset (lines.getD i "") stb).output
        ++ [Emit.src (normalizeLine (lines.getD i ""))]) = _
      rw [srcOf_append, srcOf_src, labelReset_output,
        bareLayer_src _ _ _ hb]

theorem runFrom_src (dist : ℚ → ℚ → ℚ → ℚ → ℚ) (cfg : Cfg)
    (lines : List String) :
    ∀ n i st st', runFrom dist cfg lines n i st = Except.ok st' →
      srcOf st'.output = srcOf st.output
        ++ (List.range n).map (fun j => emittedBody (lines.getD (i + j) "")) := by
  intro n
  induction n with
  | zero =>
    intro i st st' h
    unfold runFrom at h
    injection h with h1
    rw [← h1]
    simp
  | succ n ih =>
    intro i st st' h
    unfold runFrom at h
    cases hs : stepLine dist cfg lines i st with
    | error e => rw [hs] at h; exact absurd h (by simp)
    | ok st1 =>
      rw [hs] at h
      rw [ih (i + 1) st1 st' h, stepLine_src dist cfg lines i st st1 hs]
      rw [List.range_succ_eq_map, List.map_cons, List.map_map]
      have e2 : ((fun j => emittedBody (lines.getD (i + j) "")) ∘ Nat.succ)
          = (fun j => emittedBody (lines.getD (i + 1 + j) "")) := by
        funext j
        show emittedBody (lines.getD (i + (j + 1)) "")
          = emittedBody (lines.getD (i + 1 + j) "")
        have e3 : i + (j + 1) = i + 1 + j := by omega
        rw [e3]
      rw [e2]
      simp

theorem range_map_getD (L : List String) (f : String → String) :
    (List.range L.length).map (fun j => f (L.getD j "")) = L.map f := by
  induction L with
  | nil => simp
  | cons a t ih =>
    show (List.range (t.length + 1)).map (fun j => f ((a :: t).getD j "")) = _
    rw [List.range_succ_eq_map, List.map_cons, List.map_map]
    have e2 : ((fun j => f ((a :: t).getD j "")) ∘ Nat.succ)
        = (fun j => f (t.getD j "")) := by
      funext j
      show f ((a :: t).getD (j + 1) "") = f (t.getD j "")
      simp
    rw [e2, ih]
    simp

/-- C9: for every completed run, the passed-through body lines of the
output are exactly the input lines in order, where a section-marker (M8)
line is emitted verbatim and every other line goes through the four-case
fix-up: the three fixed Z-line shapes are replaced by fixed normalized
lines, a line exactly of the shape `G1 X…Y… F1200` is rewritten as a G0
rapid with the same coordinates, and any other line is emitted unchanged. -/
theorem c9_passthrough (dist : ℚ → ℚ → ℚ → ℚ → ℚ) (cfg : Cfg)
    (lines : List String) (st : OptState)
    (h : optimize_gcode dist cfg lines = Except.ok st) :
    srcOf st.output = lines.map emittedBody
      ∧ (∀ l, hasSubS "G1 Z3.0000" l = false → hasSubS "G1 Z0.0000" l = false →
          hasSubS "G1 Z-0.1000 F500" l = false → g1xF1200 l = false →
          normalizeLine l = l)
      ∧ (∀ l, hasSubS "G1 Z3.0000" l = true →
          normalizeLine l = "G1 Z3 F1000;         ; Raise brush")
      ∧ (∀ l, hasSubS "G1 Z3.0000" l = false → hasSubS "G1 Z0.0000" l = true →
          normalizeLine l = "G1 Z0 F1000;         ; Position at surface")
      ∧ (∀ l, hasSubS "G1 Z3.0000" l = false → hasSubS "G1 Z0.0000" l = false →
          hasSubS "G1 Z-0.1000 F500" l = true →
          normalizeLine l = "G1 Z-0.1 F1000;      ; Plunge brush to painting depth")
      ∧ (∀ l, hasSubS "G1 Z3.0000" l = false → hasSubS "G1 Z0.0000" l = false →
          hasSubS "G1 Z-0.1000 F500" l = false → g1xF1200 l = true →
          normalizeLine l = "G0 " ++ (l.drop 3) ++ "   ; Move to starting position") := by
  refine ⟨?_, ?_, ?_, ?_, ?_, ?_⟩
  · unfold optimize_gcode at h
    cases hr : runFrom dist cfg lines lines.length 0 initState with
    | error e => rw [hr] at h; exact absurd h (by simp)
    | ok st0 =>
      rw [hr] at h
      injection h with h1
      rw [← h1]
      show srcOf (st0.output ++ [Emit.ending]) = _
      rw [srcOf_append]
      have hs0 := runFrom_src dist cfg lines lines.length 0 initState st0 hr
      simp only [Nat.zero_add] at hs0
      rw [hs0, range_map_getD lines emittedBody]
      simp [initState, srcOf, srcProj]
  · intro l h1 h2 h3 h4
    simp [normalizeLine, h1, h2, h3, h4]
  · intro l h1
    simp [normalizeLine, h1]
  · intro l h1 h2
    simp [normalizeLine, h1, h2]
  · intro l h1 h2 h3
    simp [normalizeLine, h1, h2, h3]
  · intro l h1 h2 h3 h4
    simp [normalizeLine, h1, h2, h3, h4]

/-- Witness for C9 on a small concrete run containing an M8 marker, a
normalized Z line, a rewritten G1/F1200 move and an untouched line. -/
theorem c9_passthrough_witness :
    srcOf ({ initState with
      found_m8 := true,
      output := [Emit.homing, Emit.src "M8", Emit.src "G1 Z3 F1000;         ; Raise brush",
        Emit.src "G0 X1Y2 F1200   ; Move to starting position", Emit.src "hello",
        Emit.ending] } : OptState).output =
      ["M8", "G1 Z3.0000", "G1 X1Y2 F1200", "hello"].map emittedBody :=
  (c9_passthrough distEuclid ⟨100, 2, false⟩
    ["M8", "G1 Z3.0000", "G1 X1Y2 F1200", "hello"]
    { initState with
      found_m8 := true,
      output := [Emit.homing, Emit.src "M8", Emit.src "G1 Z3 F1000;         ; Raise brush",
        Emit.src "G0 X1Y2 F1200   ; Move to starting position", Emit.src "hello",
        Emit.ending] } (by decide)).1

/-! ## Counter monotonicity between maintenance events -/

theorem emitSeqCount_append (a b : List Emit) :
    emitSeqCount (a ++ b) = emitSeqCount a + emitSeqCount b :=
  List.countP_append _ _ _

theorem maintInsert_seq (st : OptState) (lines : List String) (i : ℕ)
    (line : String) :
    emitSeqCount st.output < emitSeqCount (maintInsert st lines i line).output := by
  show emitSeqCount st.output <
    emitSeqCount (st.output ++ maintEmits st lines i line)
  rw [emitSeqCount_append]
  have hpos : 0 < emitSeqCount (maintEmits st lines i line) := by
    unfold maintEmits
    rw [emitSeqCount_append, emitSeqCount_append]
    have : emitSeqCount [Emit.seq (resolveColor st.current_layer).1] = 1 := rfl
    omega
  omega

theorem m8Transition_seq (st : OptState) (nl : String) (sq : PaintSeq)
    (nm : String) :
    emitSeqCount st.output < emitSeqCount (m8Transition st nl sq nm).output := by
  simp only [m8Transition]
  split <;> split <;>
    · repeat rw [emitSeqCount_append]
      simp [emitSeqCount, isSeqEmit]
      try omega

theorem m8Handle_acc_seq (lines : List String) (i : ℕ) (line : String)
    (st : OptState) :
    (m8Handle lines i line st).accumulated_length = st.accumulated_length
      ∨ emitSeqCount st.output < emitSeqCount (m8Handle lines i line st).output := by
  unfold m8Handle
  split
  · left; rfl
  · split
    · left; rfl
    · dsimp only
      split
      · left; rfl
      · right
        refine lt_of_le_of_lt (le_of_eq ?_) (m8Transition_seq _ _ _ _)
        show emitSeqCount st.output
          = emitSeqCount (st.output ++ [Emit.src line])
        rw [emitSeqCount_append]
        simp [emitSeqCount, isSeqEmit]

theorem bareLayer_none (line : String) (st : OptState)
    (h : layerMatchS line = none) : bareLayer line st = Except.ok st := by
  unfold bareLayer
  rw [h]

theorem labelReset_none (line : String) (st : OptState)
    (h : layerMatchS line = none) : labelReset line st = st := by
  unfold labelReset
  rw [h]

theorem accumulate_mono (dist : ℚ → ℚ → ℚ → ℚ → ℚ) (cfg : Cfg)
    (lines : List String) (i : ℕ) (line : String) (st : OptState)
    (hd : ∀ a b x y, 0 ≤ dist a b x y) :
    st.accumulated_length ≤
        (accumulate dist cfg lines i line st).accumulated_length
      ∨ emitSeqCount st.output <
          emitSeqCount (accumulate dist cfg lines i line st).output := by
  unfold accumulate
  dsimp only
  split
  · split
    · right
      exact maintInsert_seq _ lines i line
    · left
      show st.accumulated_length ≤ st.accumulated_length
        + dist st.prev_x st.prev_y st.current_x st.current_y
      have := hd st.prev_x st.prev_y st.current_x st.current_y
      linarith
  · left
    show st.accumulated_length ≤ st.accumulated_length
      + dist st.prev_x st.prev_y st.current_x st.current_y
    have := hd st.prev_x st.prev_y st.current_x st.current_y
    linarith

theorem coordHandle_mono (dist : ℚ → ℚ → ℚ → ℚ → ℚ) (cfg : Cfg)
    (lines : List String) (i : ℕ) (line : String) (st st1 : OptState)
    (hd : ∀ a b x y, 0 ≤ dist a b x y)
    (h : coordHandle dist cfg lines i line st = Except.ok st1) :
    st.accumulated_length ≤ st1.accumulated_length
      ∨ emitSeqCount st.output < emitSeqCount st1.output := by
  unfold coordHandle at h
  cases hc : coordMatchS line with
  | none =>
    rw [hc] at h
    injection h with h1
    rw [← h1]
    left; exact le_refl _
  | some g =>
    rw [hc] at h
    dsimp only at h
    cases hp1 : parseFloatS g.1 with
    | none => rw [hp1] at h; exact absurd h (by simp)
    | some x =>
      rw [hp1] at h
      cases hp2 : parseFloatS g.2 with
      | none => rw [hp2] at h; exact absurd h (by simp)
      | some y =>
        rw [hp2] at h
        dsimp only at h
        split at h
        · injection h with h1
          rw [← h1]
          exact accumulate_mono dist cfg lines i line _ hd
        · injection h with h1
          rw [← h1]
          left; exact le_refl _

/-- C2 (amended): immediately after any maintenance insertion and at every
confirmed layer transition the counter is exactly zero (first three
conjuncts: the distance-triggered injector, the M8 transition block, and
the bare-marker transition block, all end with `accumulated_length = 0`);
and for nonnegative segment distances the counter can strictly decrease
across a processed line only when that line carries a layer label or the
step emitted a maintenance block — the amendment forced by the
counterexample is the layer-label case, where the counter is reset to zero
by lines 389-395 of the source without any insertion being emitted. -/
theorem c2_reset_monotone :
    (∀ (st : OptState) (lines : List String) (i : ℕ) (line : String),
        (maintInsert st lines i line).accumulated_length = 0)
      ∧ (∀ (st : OptState) (nl : String) (sq : PaintSeq) (nm : String),
          (m8Transition st nl sq nm).accumulated_length = 0)
      ∧ (∀ (st : OptState) (id : String) (st1 : OptState),
          bareTransition st id = Except.ok st1 →
          st1.accumulated_length = 0)
      ∧ (∀ (dist : ℚ → ℚ → ℚ → ℚ → ℚ) (cfg : Cfg) (lines : List String)
          (i : ℕ) (st st1 : OptState),
          (∀ a b x y, 0 ≤ dist a b x y) →
          stepLine dist cfg lines i st = Except.ok st1 →
          st1.accumulated_length < st.accumulated_length →
          layerMatchS (lines.getD i "") ≠ none
            ∨ emitSeqCount st.output < emitSeqCount st1.output) := by
  refine ⟨maintInsert_acc, m8Transition_acc, bareTransition_acc, ?_⟩
  intro dist cfg lines i st st1 hd h hdec
  unfold stepLine at h
  by_cases hm8 : m8Match (lines.getD i "") = true
  · rw [if_pos hm8] at h
    injection h with h1
    rw [← h1] at hdec ⊢
    rcases m8Handle_acc_seq lines i (lines.getD i "") st with he | he
    · rw [he] at hdec
      exact absurd hdec (lt_irrefl _)
    · right; exact he
  · rw [if_neg hm8] at h
    cases hlm : layerMatchS (lines.getD i "") with
    | some id => left; simp
    | none =>
      rw [bareLayer_none _ _ hlm] at h
      dsimp only at h
      rw [labelReset_none _ _ hlm] at h
      rcases coordHandle_mono dist cfg lines i (lines.getD i "") _ st1 hd h
        with he | he
      · rw [drawFlags_acc, pathUpdate_acc] at he
        exact absurd (lt_of_lt_of_le hdec he) (lt_irrefl _)
      · right
        rw [drawFlags_output, pathUpdate_output] at he
        rw [emitSeqCount_append] at he
        simp only [emitSeqCount, isSeqEmit] at he ⊢
        omega

/-- First witness state for C2: positive counter, Green active. -/
def c2wState : OptState :=
  { initState with
    accumulated_length := 5,
    current_layer := "Green",
    previous_layer := some "Green" }

/-- Second witness state for C2: the result of processing `;Layer Blue`. -/
def c2wState2 : OptState :=
  { initState with
    current_layer := "Blue",
    previous_layer := some "Green",
    output := [Emit.homing, Emit.src ";Layer Blue"] }

/-- Witness for C2: the decreasing step at the bare `;Layer Blue` marker
satisfies the disjunction (the line carries a layer label). -/
theorem c2_reset_monotone_witness :
    layerMatchS ([";Layer Blue"].getD 0 "") ≠ none
      ∨ emitSeqCount c2wState.output < emitSeqCount c2wState2.output :=
  c2_reset_monotone.2.2.2 distEuclid ⟨100, 2, false⟩ [";Layer Blue"] 0
    c2wState c2wState2 (fun a b x y => distEuclid_nonneg a b x y)
    (by decide) (by decide)

theorem pathUpdate_total (line : String) (st : OptState) :
    (pathUpdate line st).total_length = st.total_length := by
  unfold pathUpdate
  cases pathMatchS line <;> rfl

theorem drawFlags_total (line : String) (st : OptState) :
    (drawFlags line st).total_length = st.total_length := by
  unfold drawFlags
  split <;> split <;> rfl

/-- C4 (amended): a malformed numeric field is non-fatal exactly when it
makes the coordinate pattern fail to match — such a line (with no section
or layer marker) is emitted through the fix-up chain with the distance
counters untouched; but when the malformed field still consists only of
digits, dots and minus signs in a matching position (so the pattern
matches and the float conversion runs), the step aborts with an uncaught
error instead of passing the line through. -/
theorem c4_malformed_numeric :
    (∀ (dist : ℚ → ℚ → ℚ → ℚ → ℚ) (cfg : Cfg) (lines : List String)
        (i : ℕ) (st : OptState),
        m8Match (lines.getD i "") = false →
        layerMatchS (lines.getD i "") = none →
        coordMatchS (lines.getD i "") = none →
        ∃ st1, stepLine dist cfg lines i st = Except.ok st1
          ∧ st1.output =
              st.output ++ [Emit.src (normalizeLine (lines.getD i ""))]
          ∧ st1.accumulated_length = st.accumulated_length
          ∧ st1.total_length = st.total_length)
      ∧ (∀ (dist : ℚ → ℚ → ℚ → ℚ → ℚ) (cfg : Cfg) (lines : List String)
          (i : ℕ) (st : OptState) (a b : String),
          m8Match (lines.getD i "") = false →
          coordMatchS (lines.getD i "") = some (a, b) →
          parseFloatS a = none →
          ∃ e, stepLine dist cfg lines i st = Except.error e) := by
  constructor
  · intro dist cfg lines i st hm8 hlm hc
    have hm : ¬m8Match (lines.getD i "") = true := by rw [hm8]; simp
    refine ⟨drawFlags (lines.getD i "") (pathUpdate (lines.getD i "")
      { st with output := st.output
          ++ [Emit.src (normalizeLine (lines.getD i ""))] }), ?_, ?_, ?_, ?_⟩
    · unfold stepLine
      rw [if_neg hm, bareLayer_none _ _ hlm]
      dsimp only
      rw [labelReset_none _ _ hlm]
      unfold coordHandle
      rw [hc]
    · rw [drawFlags_output, pathUpdate_output]
    · rw [drawFlags_acc, pathUpdate_acc]
    · rw [drawFlags_total, pathUpdate_total]
  · intro dist cfg lines i st a b hm8 hc hp
    have hm : ¬m8Match (lines.getD i "") = true := by rw [hm8]; simp
    cases hb : bareLayer (lines.getD i "") st with
    | error e =>
      refine ⟨e, ?_⟩
      unfold stepLine
      rw [if_neg hm, hb]
    | ok stb =>
      refine ⟨PyErr.valueError a, ?_⟩
      unfold stepLine
      rw [if_neg hm, hb]
      dsimp only
      unfold coordHandle
      rw [hc]
      dsimp only
      rw [hp]

/-- Witness for C4: the line with coordinate token `1.2.3` makes the step
abort. -/
theorem c4_malformed_numeric_witness :
    ∃ e, stepLine distEuclid ⟨100, 2, false⟩ ["G1 X1.2.3Y5Z0F1200"] 0
      initState = Except.error e :=
  c4_malformed_numeric.2 distEuclid ⟨100, 2, false⟩ ["G1 X1.2.3Y5Z0F1200"] 0
    initState "1.2.3" "5" (by decide) (by decide) (by decide)

/-- C5 (amended): on the section-marker lookahead path an unmapped layer
identifier produces no transition at all — the M8 branch only emits the
M8 line and sets the section flag, leaving the counter, the active color
and the previous layer untouched; the default (wash) fallback lives only
in the resolver that the other paths use. -/
theorem c5_unmapped_layer :
    (∀ (lines : List String) (i : ℕ) (line : String) (st : OptState)
        (nl : String),
        lookaheadLayer lines (i + 1) = some nl →
        lcLookup nl = none →
        m8Handle lines i line st =
          { st with found_m8 := true,
                    output := st.output ++ [Emit.src line] })
      ∧ (∀ id, lcLookup id = none →
          resolveColor id = (PaintSeq.wash, "Washing")) := by
  constructor
  · intro lines i line st nl hla hlc
    unfold m8Handle
    rw [hla]
    dsimp only
    rw [hlc]
  · intro id h
    unfold resolveColor
    rw [h]

/-- Witness for C5: the concrete M8 section whose lookahead finds the
unmapped label Purple leaves the state unchanged apart from the flag and
the emitted M8 line. -/
theorem c5_unmapped_layer_witness :
    m8Handle ["M8", ";Layer Purple"] 0 "M8" initState =
      { initState with
        found_m8 := true,
        output := initState.output ++ [Emit.src "M8"] } :=
  c5_unmapped_layer.1 ["M8", ";Layer Purple"] 0 "M8" initState "Purple"
    (by decide) (by decide)
